import Mathlib

/-!
Shallow embedding of the sms-ai-assistant message pipeline: the
authorization gate (app/services/auth.py), the conversation, message and
outbox repositories (app/repositories/), the OpenAI provider retry loop
(app/providers/openai_provider.py), the core SMS service
(app/services/sms.py) and the inbound HTTP route (app/routes/sms.py).
Machine time is modelled as a Nat tick, SQLite tables as Lean lists of
row structures, and Python strings as Lean strings (with character-level
operations on List Char where the source manipulates characters).
-/

namespace SmsAssistant

/-! ### Authorization gate (app/services/auth.py) -/

/-- Characters removed by Python str.strip with no arguments (ASCII whitespace). -/
def isPySpace (c : Char) : Bool :=
  c = ' ' || c = '\t' || c = '\n' || c = '\r' || c = '\x0b' || c = '\x0c'

/-- Python str.strip: drop whitespace from both ends of the character sequence. -/
def pyStrip (l : List Char) : List Char :=
  ((l.dropWhile isPySpace).reverse.dropWhile isPySpace).reverse

/-- AuthService._normalize on the character sequence of the input: empty input
maps to empty; otherwise strip whitespace, then keep only digits, preserving a
single leading plus sign if present (re.sub of non-digits). -/
def normalizeL (l : List Char) : List Char :=
  if l = [] then []
  else
    let t := pyStrip l
    if t.head? = some '+' then '+' :: (t.drop 1).filter Char.isDigit
    else t.filter Char.isDigit

/-- AuthService._normalize lifted to Lean String. -/
def normalize (s : String) : String :=
  (normalizeL s.toList).asString

/-- The normalized allowlist built in AuthService.__init__:
the normalizations of the truthy (non-empty) configured numbers. -/
def allowedNormalized (allowed_numbers : List String) : List String :=
  (allowed_numbers.filter (fun n => n ≠ "")).map normalize

/-- AuthService.is_authorized: true in open mode (empty normalized allowlist),
otherwise true exactly when the normalized number is in the allowlist. -/
def is_authorized (allowed_numbers : List String) (phone_number : String) : Bool :=
  if allowedNormalized allowed_numbers = [] then true
  else (allowedNormalized allowed_numbers).contains (normalize phone_number)

/-! ### Outbox repository (app/repositories/outbox.py) -/

/-- The CHECK-constrained status column of the outbox table. -/
inductive OboxStatus
  | pending
  | sent
  | failed
deriving DecidableEq, Repr

/-- A row of the outbox table (dataclass OutboxMessage). -/
structure OutboxEntry where
  id : Nat
  phone_number : String
  content : String
  created_at : Nat
  status : OboxStatus
  sent_at : Option Nat
deriving DecidableEq, Repr

/-- The Literal["sent", "failed"] argument of acknowledge. -/
inductive AckStatus
  | sent
  | failed
deriving DecidableEq, Repr

/-- The status value written by acknowledge. -/
def ackTarget : AckStatus → OboxStatus
  | AckStatus.sent => OboxStatus.sent
  | AckStatus.failed => OboxStatus.failed

/-- The sent_at value written by acknowledge: now when marking sent, NULL when
marking failed. -/
def ackSentAt (status : AckStatus) (now : Nat) : Option Nat :=
  match status with
  | AckStatus.sent => some now
  | AckStatus.failed => none

/-- The effect of the acknowledge UPDATE on one row: rewritten when it matches
the WHERE clause (id matches and status is pending), untouched otherwise. -/
def ackUpd (message_id : Nat) (status : AckStatus) (now : Nat) (e : OutboxEntry) :
    OutboxEntry :=
  if e.id = message_id ∧ e.status = OboxStatus.pending then
    { e with status := ackTarget status, sent_at := ackSentAt status now }
  else e

/-- OutboxRepository.acknowledge: UPDATE outbox SET status, sent_at WHERE
id = message_id AND status = 'pending'; returns rowcount > 0 together with the
updated table. -/
def acknowledge (table : List OutboxEntry) (message_id : Nat) (status : AckStatus)
    (now : Nat) : Bool × List OutboxEntry :=
  let applied := table.any fun e =>
    decide (e.id = message_id ∧ e.status = OboxStatus.pending)
  (applied, table.map (ackUpd message_id status now))

/-- A sequence of acknowledge calls applied in order; each element carries the
target id, the terminal status and the clock value of the call. -/
def ackSeq (table : List OutboxEntry) (ops : List (Nat × AckStatus × Nat)) :
    List OutboxEntry :=
  ops.foldl (fun t op => (acknowledge t op.1 op.2.1 op.2.2).2) table

/-! ### Conversation repository (app/repositories/conversation.py) -/

/-- A row of the conversations table (dataclass Conversation). -/
structure Conversation where
  id : Nat
  phone_number : String
  created_at : Nat
  updated_at : Nat
deriving DecidableEq, Repr

/-- ConversationRepository.find_by_phone: SELECT ... WHERE phone_number = ?. -/
def find_by_phone (tbl : List Conversation) (phone_number : String) :
    Option Conversation :=
  tbl.find? (fun c => c.phone_number == phone_number)

/-- The INSERT INTO conversations statement, including the UNIQUE constraint on
phone_number from the schema (app/core/database.py): inserting a duplicate
number raises an IntegrityError, modelled as Except.error. -/
def insertConversation (tbl : List Conversation) (phone_number : String)
    (now nextId : Nat) : Except String (Conversation × List Conversation) :=
  if tbl.any (fun c => c.phone_number == phone_number) then
    Except.error "UNIQUE constraint failed: conversations.phone_number"
  else
    let row : Conversation := ⟨nextId, phone_number, now, now⟩
    Except.ok (row, tbl ++ [row])

/-- The second half of ConversationRepository.find_or_create, resumed after the
await of find_by_phone returned found: return the existing row, otherwise run
the INSERT against the current table state. -/
def find_or_create_resume (found : Option Conversation) (tbl : List Conversation)
    (phone_number : String) (now nextId : Nat) :
    Except String (Conversation × List Conversation) :=
  match found with
  | some c => Except.ok (c, tbl)
  | none => insertConversation tbl phone_number now nextId

/-- ConversationRepository.find_or_create run without interleaving: the find
and the conditional insert execute back to back against the same table. -/
def find_or_create (tbl : List Conversation) (phone_number : String)
    (now nextId : Nat) : Except String (Conversation × List Conversation) :=
  find_or_create_resume (find_by_phone tbl phone_number) tbl phone_number now nextId

/-! ### Message repository (app/repositories/message.py) -/

/-- A row of the messages table (dataclass Message in the repository). -/
structure MessageRow where
  id : Nat
  conversation_id : Nat
  role : String
  content : String
  timestamp : Nat
  status : String
deriving DecidableEq, Repr

/-- The ORDER BY timestamp DESC comparison used by get_history. -/
def tsDesc (a b : MessageRow) : Prop := b.timestamp ≤ a.timestamp

instance : DecidableRel tsDesc := fun a b => Nat.decLe b.timestamp a.timestamp

instance : IsTotal MessageRow tsDesc :=
  ⟨fun a b => (Nat.le_total b.timestamp a.timestamp).elim Or.inl Or.inr⟩

instance : IsTrans MessageRow tsDesc :=
  ⟨fun _ _ _ hab hbc => Nat.le_trans hbc hab⟩

/-- MessageRepository.get_history: SELECT the rows of the conversation ORDER BY
timestamp DESC LIMIT limit, then reverse into oldest-first order. -/
def get_history (table : List MessageRow) (conversation_id : Nat) (limit : Nat) :
    List MessageRow :=
  let rows :=
    List.insertionSort tsDesc
      (table.filter (fun m => m.conversation_id == conversation_id))
  (rows.take limit).reverse

/-! ### Database state and repository operations used by the SMS service -/

/-- The whole persisted state: the three tables plus the AUTOINCREMENT
counters that assign fresh row ids. -/
structure Db where
  conversations : List Conversation
  messages : List MessageRow
  outbox : List OutboxEntry
  nextConvId : Nat
  nextMsgId : Nat
  nextOutboxId : Nat
deriving DecidableEq, Repr

/-- The empty database produced by the schema bootstrap. -/
def emptyDb : Db := ⟨[], [], [], 1, 1, 1⟩

/-- MessageRepository.create: INSERT a message row with a fresh id and the
current clock as its timestamp, returning the created row. -/
def createMessage (db : Db) (conversation_id : Nat) (role content status : String)
    (now : Nat) : MessageRow × Db :=
  let m : MessageRow := ⟨db.nextMsgId, conversation_id, role, content, now, status⟩
  (m, { db with messages := db.messages ++ [m], nextMsgId := db.nextMsgId + 1 })

/-- OutboxRepository.enqueue: INSERT a pending outbox row, returning its id. -/
def enqueue (db : Db) (phone_number content : String) (now : Nat) : Nat × Db :=
  let e : OutboxEntry :=
    ⟨db.nextOutboxId, phone_number, content, now, OboxStatus.pending, none⟩
  (e.id, { db with outbox := db.outbox ++ [e], nextOutboxId := db.nextOutboxId + 1 })

/-- ConversationRepository.touch: UPDATE conversations SET updated_at WHERE id. -/
def touch (db : Db) (conversation_id : Nat) (now : Nat) : Db :=
  { db with
    conversations := db.conversations.map fun c =>
      if c.id = conversation_id then { c with updated_at := now } else c }

/-- ConversationRepository.find_or_create as executed by a single
uninterleaved task over the Db state: the existing row, or a fresh insert. -/
def findOrCreateDb (db : Db) (phone_number : String) (now : Nat) :
    Conversation × Db :=
  match find_by_phone db.conversations phone_number with
  | some c => (c, db)
  | none =>
    let c : Conversation := ⟨db.nextConvId, phone_number, now, now⟩
    (c, { db with conversations := db.conversations ++ [c],
                  nextConvId := db.nextConvId + 1 })

/-! ### AI provider (app/providers/openai_provider.py) -/

/-- A chat message dict {role, content} passed to the provider. -/
structure ChatMessage where
  role : String
  content : String
deriving DecidableEq, Repr

/-- The fixed fallback reply of the OpenAI provider. -/
def FALLBACK_MESSAGE : String :=
  "I'm having trouble right now. Please try again in a moment."

/-- The outcome of one chat.completions.create call: a success carrying the
(possibly NULL) message content, a rate-limit error, a transient API error, or
any other exception class. -/
inductive CallOutcome
  | success (content : Option String)
  | rateLimit
  | apiError
  | otherError
deriving DecidableEq, Repr

/-- The value returned on a successful call: content or FALLBACK_MESSAGE,
where Python treats None and the empty string as falsy. -/
def successValue (content : Option String) : String :=
  match content with
  | none => FALLBACK_MESSAGE
  | some s => if s = "" then FALLBACK_MESSAGE else s

/-- Whether an outcome is handled by a retrying except branch (RateLimitError
waits and retries; APIError retries while attempts remain). -/
def retryable : CallOutcome → Bool
  | CallOutcome.rateLimit => true
  | CallOutcome.apiError => true
  | _ => false

/-- The retry loop body of OpenAIProvider.generate_response. The oracle gives
the outcome of the call made on each attempt index; fuel is the number of loop
iterations left. Returns the reply string and the number of calls attempted. -/
def generateGo (oracle : Nat → CallOutcome) (attempt fuel : Nat) : String × Nat :=
  match fuel with
  | 0 => (FALLBACK_MESSAGE, attempt)
  | fuel2 + 1 =>
    match oracle attempt with
    | CallOutcome.success content => (successValue content, attempt + 1)
    | CallOutcome.rateLimit => generateGo oracle (attempt + 1) fuel2
    | CallOutcome.apiError => generateGo oracle (attempt + 1) fuel2
    | CallOutcome.otherError => (FALLBACK_MESSAGE, attempt + 1)

/-- OpenAIProvider.generate_response: run the loop for max_retries attempts
starting at attempt 0. -/
def generate_response (oracle : Nat → CallOutcome) (max_retries : Nat) :
    String × Nat :=
  generateGo oracle 0 max_retries

/-! ### SMS service (app/services/sms.py) -/

/-- Failure injection for the awaited collaborator calls of the authorized
path of process_incoming: a true flag makes that call raise. -/
structure Faults where
  findOrCreate : Bool
  createUser : Bool
  getHistory : Bool
  generate : Bool
  createAssistant : Bool
  enqueueStep : Bool
  touchStep : Bool
deriving DecidableEq, Repr

/-- No collaborator raises. -/
def noFaults : Faults := ⟨false, false, false, false, false, false, false⟩

/-- Some collaborator of the authorized path raises. -/
def anyFault (f : Faults) : Bool :=
  f.findOrCreate || f.createUser || f.getHistory || f.generate ||
    f.createAssistant || f.enqueueStep || f.touchStep

/-- The try block of SMSService.process_incoming: find or create the
conversation, store the user message, fetch history, generate the reply, store
the assistant message, enqueue it, touch the conversation. An injected fault
raises at that step, carrying the database state committed so far. -/
def processBody (ai : List ChatMessage → String → String) (system_prompt : String)
    (max_context : Nat) (faults : Faults) (db : Db) (phone_number content : String)
    (now : Nat) : Except Db Db :=
  if faults.findOrCreate then Except.error db else
  let step1 := findOrCreateDb db phone_number now
  let conversation := step1.1
  let db1 := step1.2
  if faults.createUser then Except.error db1 else
  let db2 := (createMessage db1 conversation.id "user" content "received" now).2
  if faults.getHistory then Except.error db2 else
  let history := get_history db2.messages conversation.id max_context
  let ai_messages := history.map fun m => ChatMessage.mk m.role m.content
  if faults.generate then Except.error db2 else
  let response := ai ai_messages system_prompt
  if faults.createAssistant then Except.error db2 else
  let db3 := (createMessage db2 conversation.id "assistant" response "pending" now).2
  if faults.enqueueStep then Except.error db3 else
  let db4 := (enqueue db3 phone_number response now).2
  if faults.touchStep then Except.error db4 else
  Except.ok (touch db4 conversation.id now)

/-- The AI reply computed on the fault-free path of process_incoming: the
provider applied to the oldest-first history (which already contains the just
stored user message) and the system prompt. -/
def pipelineResponse (ai : List ChatMessage → String → String)
    (system_prompt : String) (max_context : Nat) (db : Db)
    (phone_number content : String) (now : Nat) : String :=
  let step1 := findOrCreateDb db phone_number now
  let db2 := (createMessage step1.2 step1.1.id "user" content "received" now).2
  ai ((get_history db2.messages step1.1.id max_context).map
    fun m => ChatMessage.mk m.role m.content) system_prompt

/-- The database state produced by the fault-free path of process_incoming. -/
def pipelineResult (ai : List ChatMessage → String → String)
    (system_prompt : String) (max_context : Nat) (db : Db)
    (phone_number content : String) (now : Nat) : Db :=
  let step1 := findOrCreateDb db phone_number now
  let conversation := step1.1
  let db2 := (createMessage step1.2 conversation.id "user" content "received" now).2
  let response := pipelineResponse ai system_prompt max_context db phone_number
    content now
  let db3 := (createMessage db2 conversation.id "assistant" response "pending" now).2
  let db4 := (enqueue db3 phone_number response now).2
  touch db4 conversation.id now

/-- SMSService.process_incoming: the authorization check outside the try
block, then the try block with every exception caught and folded into a false
return; the second component is the database state after the call. -/
def process_incoming (allowed_numbers : List String)
    (ai : List ChatMessage → String → String) (system_prompt : String)
    (max_context : Nat) (faults : Faults) (db : Db)
    (phone_number content : String) (now : Nat) : Bool × Db :=
  if is_authorized allowed_numbers phone_number then
    match processBody ai system_prompt max_context faults db phone_number content now with
    | Except.ok db2 => (true, db2)
    | Except.error db2 => (false, db2)
  else (false, db)

/-! ### Inbound HTTP route (app/routes/sms.py) -/

/-- Python truthiness of the optional sms_api_key setting. -/
def keyTruthy : Option String → Bool
  | none => false
  | some s => s ≠ ""

/-- receive_sms for POST /api/sms/incoming: reject with ok false when an API
key is configured and the supplied header differs; otherwise run
process_incoming, discard its boolean result, and answer ok true. -/
def receive_sms (sms_api_key x_api_key : Option String)
    (allowed_numbers : List String) (ai : List ChatMessage → String → String)
    (system_prompt : String) (max_context : Nat) (faults : Faults) (db : Db)
    (from_number content : String) (now : Nat) : Bool × Db :=
  if keyTruthy sms_api_key ∧ x_api_key ≠ sms_api_key then (false, db)
  else
    let r := process_incoming allowed_numbers ai system_prompt max_context faults
      db from_number content now
    (true, r.2)

/-! ## Theorems -/

/-- C2: the code of ConversationRepository.find_or_create is a naive
check-then-insert; interleaving two concurrent calls for the same number so
that both find_by_phone reads happen before either INSERT makes the second
INSERT violate the UNIQUE constraint on phone_number and raise, so
find_or_create does fail under concurrent calls, contradicting both the claim
and the code's own docstring "Never fails." -/
theorem find_or_create_race_raises :
    find_by_phone [] "+15551234567" = none ∧
    find_or_create_resume none [] "+15551234567" 0 1 =
      Except.ok ((⟨1, "+15551234567", 0, 0⟩ : Conversation),
        [(⟨1, "+15551234567", 0, 0⟩ : Conversation)]) ∧
    find_or_create_resume none [(⟨1, "+15551234567", 0, 0⟩ : Conversation)]
        "+15551234567" 0 2 =
      Except.error "UNIQUE constraint failed: conversations.phone_number" := by
  refine ⟨rfl, rfl, ?_⟩
  simp [find_or_create_resume, insertConversation]

/-- C5: when the sender is not authorized, process_incoming returns false and
leaves the database exactly as it was — no conversation, message or outbox row
is written — and its outcome does not depend on the AI provider at all (no
reply is generated). -/
theorem process_incoming_unauthorized (allowed_numbers : List String)
    (ai : List ChatMessage → String → String) (system_prompt : String)
    (max_context : Nat) (faults : Faults) (db : Db)
    (phone_number content : String) (now : Nat)
    (h : is_authorized allowed_numbers phone_number = false) :
    process_incoming allowed_numbers ai system_prompt max_context faults db
        phone_number content now = (false, db) ∧
    ∀ ai2 : List ChatMessage → String → String,
      process_incoming allowed_numbers ai2 system_prompt max_context faults db
          phone_number content now =
        process_incoming allowed_numbers ai system_prompt max_context faults db
          phone_number content now := by
  constructor
  · simp [process_incoming, h]
  · intro ai2
    simp [process_incoming, h]

/-- Witness for C5 at a concrete allowlisted configuration and sender. -/
theorem process_incoming_unauthorized_witness :
    is_authorized ["+15559999999"] "+15551111111" = false ∧
    process_incoming ["+15559999999"] (fun _ _ => "hello") "sys" 20 noFaults
      emptyDb "+15551111111" "hi" 0 = (false, emptyDb) := by
  have h : is_authorized ["+15559999999"] "+15551111111" = false := by decide
  exact ⟨h, (process_incoming_unauthorized ["+15559999999"] (fun _ _ => "hello")
    "sys" 20 noFaults emptyDb "+15551111111" "hi" 0 h).1⟩

/-- C7 counterexample: an allowlisted system (only "+15559999999" allowed)
receiving from the non-allowlisted "+15551111111" with no API key configured
answers ok = true, not ok = false as the claim requires for an unauthorized
sender: receive_sms discards the boolean returned by process_incoming. -/
theorem receive_sms_unauthorized_answers_true :
    is_authorized ["+15559999999"] "+15551111111" = false ∧
    (receive_sms none none ["+15559999999"] (fun _ _ => "hello") "sys" 20
        noFaults emptyDb "+15551111111" "hi" 0).1 = true := by
  constructor
  · decide
  · rfl

/-- C7 amended: POST /api/sms/incoming always answers 200 with an ok boolean,
and ok = false is returned exactly when an API key is configured (non-empty)
and the supplied header key differs; the result of process_incoming is
discarded, so an unauthorized sender still receives ok = true. -/
theorem receive_sms_ok_iff (sms_api_key x_api_key : Option String)
    (allowed_numbers : List String) (ai : List ChatMessage → String → String)
    (system_prompt : String) (max_context : Nat) (faults : Faults) (db : Db)
    (from_number content : String) (now : Nat) :
    (receive_sms sms_api_key x_api_key allowed_numbers ai system_prompt
        max_context faults db from_number content now).1 = false ↔
      (keyTruthy sms_api_key = true ∧ x_api_key ≠ sms_api_key) := by
  by_cases h : keyTruthy sms_api_key = true ∧ x_api_key ≠ sms_api_key
  · simp [receive_sms, h]
  · simp only [receive_sms]
    rw [if_neg h]
    simpa using h

/-- Witness for C7 at a concrete configured key and a missing header key. -/
theorem receive_sms_ok_iff_witness :
    ((receive_sms (some "secret") none [] (fun _ _ => "hello") "sys" 20
        noFaults emptyDb "+15551234567" "hi" 0).1 = false ↔
      (keyTruthy (some "secret") = true ∧
        (none : Option String) ≠ some "secret")) := by
  exact receive_sms_ok_iff (some "secret") none [] (fun _ _ => "hello") "sys"
    20 noFaults emptyDb "+15551234567" "hi" 0

/-- dropWhile leaves a list alone when no element satisfies the predicate. -/
theorem dropWhile_eq_self_of_all {α : Type} {p : α → Bool} (l : List α)
    (h : ∀ c ∈ l, p c = false) : l.dropWhile p = l := by
  cases l with
  | nil => rfl
  | cons a t =>
    have ha : p a = false := h a (List.mem_cons_self a t)
    simp [List.dropWhile_cons, ha]

/-- Stripping a string that has no whitespace anywhere leaves it unchanged. -/
theorem pyStrip_eq_self (l : List Char) (h : ∀ c ∈ l, isPySpace c = false) :
    pyStrip l = l := by
  unfold pyStrip
  rw [dropWhile_eq_self_of_all _ h]
  rw [dropWhile_eq_self_of_all _ (fun c hc => h c (List.mem_reverse.mp hc))]
  exact List.reverse_reverse l

/-- A digit character is not Python whitespace. -/
theorem isPySpace_eq_false_of_isDigit (c : Char) (h : c.isDigit = true) :
    isPySpace c = false := by
  have h32 : c ≠ ' ' := by rintro rfl; exact absurd h (by decide)
  have h9 : c ≠ '\t' := by rintro rfl; exact absurd h (by decide)
  have h10 : c ≠ '\n' := by rintro rfl; exact absurd h (by decide)
  have h13 : c ≠ '\r' := by rintro rfl; exact absurd h (by decide)
  have h11 : c ≠ '\x0b' := by rintro rfl; exact absurd h (by decide)
  have h12 : c ≠ '\x0c' := by rintro rfl; exact absurd h (by decide)
  simp [isPySpace, h32, h9, h10, h13, h11, h12]

/-- The output of normalizeL is a plus sign followed by digits, or digits only. -/
theorem normalizeL_shape (l : List Char) :
    (∃ ds, normalizeL l = '+' :: ds ∧ ∀ c ∈ ds, c.isDigit = true) ∨
    (∀ c ∈ normalizeL l, c.isDigit = true) := by
  by_cases h0 : l = []
  · right; simp [normalizeL, h0]
  · by_cases hh : (pyStrip l).head? = some '+'
    · left
      refine ⟨((pyStrip l).drop 1).filter Char.isDigit, ?_, ?_⟩
      · simp only [normalizeL, if_neg h0, if_pos hh]
      · intro c hc
        exact List.of_mem_filter hc
    · right
      intro c hc
      simp only [normalizeL, if_neg h0, if_neg hh] at hc
      exact List.of_mem_filter hc

/-- normalizeL is idempotent on character sequences. -/
theorem normalizeL_idem (l : List Char) : normalizeL (normalizeL l) = normalizeL l := by
  rcases normalizeL_shape l with ⟨ds, hr, hds⟩ | hall
  · rw [hr]
    have hnospace : ∀ c ∈ ('+' :: ds), isPySpace c = false := by
      intro c hc
      rcases List.mem_cons.mp hc with rfl | hc2
      · decide
      · exact isPySpace_eq_false_of_isDigit c (hds c hc2)
    have hne : ('+' :: ds) ≠ ([] : List Char) := by simp
    simp only [normalizeL, if_neg hne]
    rw [pyStrip_eq_self _ hnospace]
    rw [if_pos (show ('+' :: ds).head? = some '+' from rfl)]
    simp only [List.drop_succ_cons, List.drop_zero]
    congr 1
    exact List.filter_eq_self.mpr hds
  · by_cases hre : normalizeL l = []
    · rw [hre]; simp [normalizeL]
    · have hnospace : ∀ c ∈ normalizeL l, isPySpace c = false :=
        fun c hc => isPySpace_eq_false_of_isDigit c (hall c hc)
      have hstrip := pyStrip_eq_self _ hnospace
      have hhead : (normalizeL l).head? ≠ some '+' := by
        cases hcase : normalizeL l with
        | nil => simp
        | cons a t =>
          simp only [List.head?_cons]
          intro he
          have ha : a ∈ normalizeL l := by
            rw [hcase]; exact List.mem_cons_self a t
          have hd : a.isDigit = true := hall a ha
          rw [Option.some.injEq] at he
          subst he
          exact absurd hd (by decide)
      set r := normalizeL l with hr2
      show normalizeL r = r
      simp only [normalizeL, if_neg hre]
      rw [hstrip, if_neg hhead]
      exact List.filter_eq_self.mpr hall

/-- C10: phone-number normalization is idempotent, and authorization depends
only on the normalized form: is_authorized gives the same verdict on a number
and on its normalization, for every allowlist. -/
theorem normalize_idempotent_auth (s : String) (allowed_numbers : List String)
    (p : String) :
    normalize (normalize s) = normalize s ∧
    is_authorized allowed_numbers p =
      is_authorized allowed_numbers (normalize p) := by
  have hid : ∀ x : String, normalize (normalize x) = normalize x := by
    intro x
    show (normalizeL (((normalizeL x.toList).asString).toList)).asString = _
    rw [List.toList_asString, normalizeL_idem]
    rfl
  refine ⟨hid s, ?_⟩
  simp only [is_authorized]
  rw [hid p]

/-- C9: is_authorized is true exactly when the normalized allowlist is empty
(open mode) or the normalized number is in it; an empty configured list means
open mode; with "+15551234567" configured, the formatted "+1 (555) 123-4567"
is authorized while "15551234567" (no leading plus) is not. -/
theorem is_authorized_spec (allowed_numbers : List String) (p : String) :
    (is_authorized allowed_numbers p = true ↔
      (allowedNormalized allowed_numbers = [] ∨
        normalize p ∈ allowedNormalized allowed_numbers)) ∧
    (allowed_numbers = [] → is_authorized allowed_numbers p = true) ∧
    is_authorized ["+15551234567"] "+1 (555) 123-4567" = true ∧
    is_authorized ["+15551234567"] "15551234567" = false := by
  refine ⟨?_, ?_, by decide, by decide⟩
  · by_cases h : allowedNormalized allowed_numbers = []
    · simp [is_authorized, h]
    · simp [is_authorized, h]
  · intro h
    subst h
    simp [is_authorized, allowedNormalized]

/-- Witness for C9 at the configured number of the claim. -/
theorem is_authorized_spec_witness :
    is_authorized ["+15551234567"] "+1 (555) 123-4567" = true ∧
    (is_authorized ["+15551234567"] "15551234567" = true ↔
      (allowedNormalized ["+15551234567"] = [] ∨
        normalize "15551234567" ∈ allowedNormalized ["+15551234567"])) := by
  exact ⟨(is_authorized_spec ["+15551234567"] "+1 (555) 123-4567").2.2.1,
    (is_authorized_spec ["+15551234567"] "15551234567").1⟩

/-- The retry loop makes at most fuel further calls beyond attempt. -/
theorem generateGo_attempts_le (oracle : Nat → CallOutcome) :
    ∀ fuel attempt, (generateGo oracle attempt fuel).2 ≤ attempt + fuel := by
  intro fuel
  induction fuel with
  | zero => intro attempt; simp [generateGo]
  | succ f ih =>
    intro attempt
    cases ho : oracle attempt with
    | success c => simp [generateGo, ho]
    | rateLimit =>
      have := ih (attempt + 1)
      simp only [generateGo, ho]
      omega
    | apiError =>
      have := ih (attempt + 1)
      simp only [generateGo, ho]
      omega
    | otherError => simp [generateGo, ho]

/-- While every attempted call fails with a retryable error the loop runs to
exhaustion and falls through to the fallback. -/
theorem generateGo_all_retry (oracle : Nat → CallOutcome) :
    ∀ fuel attempt,
      (∀ i, attempt ≤ i → i < attempt + fuel → retryable (oracle i) = true) →
      generateGo oracle attempt fuel = (FALLBACK_MESSAGE, attempt + fuel) := by
  intro fuel
  induction fuel with
  | zero => intro attempt h; simp [generateGo]
  | succ f ih =>
    intro attempt h
    have hr : retryable (oracle attempt) = true :=
      h attempt (Nat.le_refl attempt) (by omega)
    cases ho : oracle attempt with
    | success c => rw [ho] at hr; simp [retryable] at hr
    | rateLimit =>
      simp only [generateGo, ho]
      rw [ih (attempt + 1) (fun i h1 h2 => h i (by omega) (by omega))]
      congr 1
      omega
    | apiError =>
      simp only [generateGo, ho]
      rw [ih (attempt + 1) (fun i h1 h2 => h i (by omega) (by omega))]
      congr 1
      omega
    | otherError => rw [ho] at hr; simp [retryable] at hr

/-- While only retryable errors occur the loop advances to any later attempt
index within the budget, with correspondingly less fuel. -/
theorem generateGo_skip (oracle : Nat → CallOutcome) :
    ∀ fuel attempt k, attempt ≤ k → k < attempt + fuel →
      (∀ i, attempt ≤ i → i < k → retryable (oracle i) = true) →
      generateGo oracle attempt fuel = generateGo oracle k (attempt + fuel - k) := by
  intro fuel
  induction fuel with
  | zero => intro attempt k h1 h2 h3; omega
  | succ f ih =>
    intro attempt k h1 h2 h3
    by_cases he : attempt = k
    · subst he
      congr 1
      omega
    · have hlt : attempt < k := by omega
      have hr : retryable (oracle attempt) = true :=
        h3 attempt (Nat.le_refl attempt) hlt
      have step : ∀ rest,
          generateGo oracle (attempt + 1) f = rest →
          attempt + 1 + f - k = attempt + (f + 1) - k := by
        intro rest _
        omega
      cases ho : oracle attempt with
      | success c => rw [ho] at hr; simp [retryable] at hr
      | rateLimit =>
        simp only [generateGo, ho]
        rw [ih (attempt + 1) k (by omega) (by omega)
          (fun i hi1 hi2 => h3 i (by omega) hi2)]
        congr 1
        omega
      | apiError =>
        simp only [generateGo, ho]
        rw [ih (attempt + 1) k (by omega) (by omega)
          (fun i hi1 hi2 => h3 i (by omega) hi2)]
        congr 1
        omega
      | otherError => rw [ho] at hr; simp [retryable] at hr

/-- C3: generate_response always yields a string with at most max_retries
provider calls; if every attempt fails with a retryable (rate-limit or
transient API) error the budget is exhausted and the fixed fallback string is
returned; a non-retryable error abandons retries immediately and returns the
fallback; a success after retryable errors returns the provider content, with
the fallback substituted when the body is NULL or empty. -/
theorem generate_response_spec (oracle : Nat → CallOutcome) (max_retries : Nat) :
    (generate_response oracle max_retries).2 ≤ max_retries ∧
    ((∀ i, i < max_retries → retryable (oracle i) = true) →
      generate_response oracle max_retries = (FALLBACK_MESSAGE, max_retries)) ∧
    (∀ k, k < max_retries →
      (∀ i, i < k → retryable (oracle i) = true) →
      oracle k = CallOutcome.otherError →
      generate_response oracle max_retries = (FALLBACK_MESSAGE, k + 1)) ∧
    (∀ k c, k < max_retries →
      (∀ i, i < k → retryable (oracle i) = true) →
      oracle k = CallOutcome.success c →
      generate_response oracle max_retries = (successValue c, k + 1)) ∧
    successValue none = FALLBACK_MESSAGE ∧
    successValue (some "") = FALLBACK_MESSAGE := by
  refine ⟨?_, ?_, ?_, ?_, rfl, rfl⟩
  · have := generateGo_attempts_le oracle max_retries 0
    simpa [generate_response] using this
  · intro h
    have := generateGo_all_retry oracle max_retries 0
      (fun i h1 h2 => h i (by omega))
    simpa [generate_response] using this
  · intro k hk h ho
    have hskip := generateGo_skip oracle max_retries 0 k (Nat.zero_le k)
      (by omega) (fun i h1 h2 => h i h2)
    have hfuel : ∃ f, 0 + max_retries - k = f + 1 := ⟨max_retries - k - 1, by omega⟩
    obtain ⟨f, hf⟩ := hfuel
    rw [generate_response, hskip, hf]
    simp [generateGo, ho]
  · intro k c hk h ho
    have hskip := generateGo_skip oracle max_retries 0 k (Nat.zero_le k)
      (by omega) (fun i h1 h2 => h i h2)
    have hfuel : ∃ f, 0 + max_retries - k = f + 1 := ⟨max_retries - k - 1, by omega⟩
    obtain ⟨f, hf⟩ := hfuel
    rw [generate_response, hskip, hf]
    simp [generateGo, ho]

/-- Witness for C3: one transient API error followed by a success returns the
provider content on the second of three allowed attempts. -/
theorem generate_response_spec_witness :
    generate_response
        (fun i => if i = 0 then CallOutcome.apiError
                  else CallOutcome.success (some "hello")) 3 = ("hello", 2) ∧
    (generate_response
        (fun i => if i = 0 then CallOutcome.apiError
                  else CallOutcome.success (some "hello")) 3).2 ≤ 3 := by
  have h := generate_response_spec
    (fun i => if i = 0 then CallOutcome.apiError
              else CallOutcome.success (some "hello")) 3
  refine ⟨?_, h.1⟩
  have h2 := h.2.2.2.1 1 (some "hello") (by omega)
    (fun i hi => by
      have : i = 0 := by omega
      subst this
      decide)
    (by decide)
  simpa using h2

/-- A map whose function fixes every member of the list is the identity. -/
theorem map_eq_self_of_all {α : Type} (f : α → α) :
    ∀ l : List α, (∀ x ∈ l, f x = x) → l.map f = l := by
  intro l
  induction l with
  | nil => intro h; rfl
  | cons a t ih =>
    intro h
    simp only [List.map_cons]
    rw [h a (List.mem_cons_self a t), ih (fun x hx => h x (List.mem_cons_of_mem a hx))]

/-- The terminal status written by acknowledge is never pending. -/
theorem ackTarget_ne_pending (status : AckStatus) :
    ackTarget status ≠ OboxStatus.pending := by
  cases status <;> simp [ackTarget]

/-- A row that does not match the WHERE clause is untouched by the UPDATE. -/
theorem ackUpd_not_matching (message_id : Nat) (status : AckStatus) (now : Nat)
    (e : OutboxEntry) (h : ¬(e.id = message_id ∧ e.status = OboxStatus.pending)) :
    ackUpd message_id status now e = e := if_neg h

/-- A non-pending row is untouched by the UPDATE. -/
theorem ackUpd_not_pending (message_id : Nat) (status : AckStatus) (now : Nat)
    (e : OutboxEntry) (h : e.status ≠ OboxStatus.pending) :
    ackUpd message_id status now e = e := if_neg (fun hc => h hc.2)

/-- Each row is either untouched or rewritten from pending to the terminal
status with its sent_at refreshed. -/
theorem ackUpd_cases (message_id : Nat) (status : AckStatus) (now : Nat)
    (e : OutboxEntry) :
    ackUpd message_id status now e = e ∨
    (e.status = OboxStatus.pending ∧
      ackUpd message_id status now e =
        { e with status := ackTarget status, sent_at := ackSentAt status now }) := by
  by_cases h : e.id = message_id ∧ e.status = OboxStatus.pending
  · exact Or.inr ⟨h.2, if_pos h⟩
  · exact Or.inl (if_neg h)

/-- After an acknowledge, no row carrying the acknowledged id is pending. -/
theorem acknowledge_no_pending_id (table : List OutboxEntry) (message_id : Nat)
    (status : AckStatus) (now : Nat) :
    ∀ e2 ∈ (acknowledge table message_id status now).2,
      e2.id = message_id → e2.status ≠ OboxStatus.pending := by
  intro e2 he2 heid
  simp only [acknowledge, List.mem_map] at he2
  obtain ⟨a, ha, rfl⟩ := he2
  by_cases hcond : a.id = message_id ∧ a.status = OboxStatus.pending
  · rw [ackUpd, if_pos hcond]
    exact ackTarget_ne_pending status
  · rw [ackUpd_not_matching _ _ _ _ hcond] at heid ⊢
    intro hpend
    exact hcond ⟨heid, hpend⟩

/-- Positional view of one acknowledge step. -/
theorem acknowledge_get? (table : List OutboxEntry) (message_id : Nat)
    (status : AckStatus) (now : Nat) (i : Nat) :
    ((acknowledge table message_id status now).2).get? i =
      (table.get? i).map (ackUpd message_id status now) := by
  simp [acknowledge, List.get?_map]

/-- Across any sequence of acknowledge calls, each position is either
untouched or has gone from pending to a non-pending status with id,
destination, content and creation time preserved. -/
theorem ackSeq_get?_cases (ops : List (Nat × AckStatus × Nat)) :
    ∀ (t : List OutboxEntry) (i : Nat),
      (ackSeq t ops).get? i = t.get? i ∨
      (∃ e e2, t.get? i = some e ∧ (ackSeq t ops).get? i = some e2 ∧
        e.status = OboxStatus.pending ∧ e2.status ≠ OboxStatus.pending ∧
        e2.id = e.id ∧ e2.phone_number = e.phone_number ∧
        e2.content = e.content ∧ e2.created_at = e.created_at) := by
  induction ops with
  | nil => intro t i; exact Or.inl rfl
  | cons op ops ih =>
    intro t i
    have hstep := acknowledge_get? t op.1 op.2.1 op.2.2 i
    have hrec := ih ((acknowledge t op.1 op.2.1 op.2.2).2) i
    have hfold : ackSeq t (op :: ops) =
        ackSeq ((acknowledge t op.1 op.2.1 op.2.2).2) ops := rfl
    rw [hfold]
    cases ho : t.get? i with
    | none =>
      rw [ho, Option.map_none'] at hstep
      rcases hrec with hsame | ⟨e, e2, he, _⟩
      · rw [hsame, hstep]
        exact Or.inl rfl
      · rw [hstep] at he
        exact absurd he (by simp)
    | some e =>
      rw [ho, Option.map_some'] at hstep
      rcases ackUpd_cases op.1 op.2.1 op.2.2 e with hc | ⟨hpend, hc⟩
      · rw [hc] at hstep
        rcases hrec with hsame | ⟨e3, e2, he3, hfin, hp3, hns, hid, hph, hco, hca⟩
        · rw [hsame, hstep]
          exact Or.inl rfl
        · rw [hstep, Option.some.injEq] at he3
          subst he3
          exact Or.inr ⟨e, e2, rfl, hfin, hp3, hns, hid, hph, hco, hca⟩
      · rw [hc] at hstep
        rcases hrec with hsame | ⟨e3, e2, he3, hfin, hp3, hns, hid, hph, hco, hca⟩
        · rw [hsame, hstep]
          refine Or.inr ⟨e, _, rfl, rfl, hpend, ?_, rfl, rfl, rfl, rfl⟩
          exact ackTarget_ne_pending op.2.1
        · rw [hstep, Option.some.injEq] at he3
          exfalso
          rw [← he3] at hp3
          exact ackTarget_ne_pending op.2.1 hp3

/-- A non-pending row is never changed again by any acknowledge sequence. -/
theorem ackSeq_get?_stable (ops : List (Nat × AckStatus × Nat)) :
    ∀ (t : List OutboxEntry) (i : Nat) (e : OutboxEntry),
      t.get? i = some e → e.status ≠ OboxStatus.pending →
      (ackSeq t ops).get? i = some e := by
  induction ops with
  | nil => intro t i e he _; exact he
  | cons op ops ih =>
    intro t i e he hns
    have hstep := acknowledge_get? t op.1 op.2.1 op.2.2 i
    rw [he, Option.map_some', ackUpd_not_pending _ _ _ _ hns] at hstep
    exact ih ((acknowledge t op.1 op.2.1 op.2.2).2) i e hstep hns

/-- C1: acknowledge applies and returns true exactly when some row with the
given id is pending; an immediately repeated acknowledge (same or different
terminal status) returns false and changes nothing; and across any sequence
of acknowledgments each row either stays identical or changes exactly once,
from pending to a non-pending status, other columns preserved. -/
theorem acknowledge_idempotent (table : List OutboxEntry) (message_id : Nat)
    (status : AckStatus) (now : Nat) :
    ((acknowledge table message_id status now).1 = true ↔
      ∃ e ∈ table, e.id = message_id ∧ e.status = OboxStatus.pending) ∧
    (∀ (status2 : AckStatus) (now2 : Nat),
      acknowledge (acknowledge table message_id status now).2 message_id
          status2 now2 =
        (false, (acknowledge table message_id status now).2)) ∧
    (∀ (ops : List (Nat × AckStatus × Nat)) (i : Nat),
      (ackSeq table ops).get? i = table.get? i ∨
      (∃ e e2, table.get? i = some e ∧ (ackSeq table ops).get? i = some e2 ∧
        e.status = OboxStatus.pending ∧ e2.status ≠ OboxStatus.pending ∧
        e2.id = e.id ∧ e2.phone_number = e.phone_number ∧
        e2.content = e.content ∧ e2.created_at = e.created_at)) ∧
    (∀ (ops1 ops2 : List (Nat × AckStatus × Nat)) (i : Nat),
      (ackSeq table ops1).get? i ≠ table.get? i →
      (ackSeq table (ops1 ++ ops2)).get? i = (ackSeq table ops1).get? i) := by
  refine ⟨?_, ?_, fun ops i => ackSeq_get?_cases ops table i, ?_⟩
  · simp [acknowledge, List.any_eq_true]
  · intro status2 now2
    have hnp : ∀ e2 ∈ (acknowledge table message_id status now).2,
        ¬(e2.id = message_id ∧ e2.status = OboxStatus.pending) := by
      intro e2 he2 hcontra
      exact acknowledge_no_pending_id table message_id status now e2 he2
        hcontra.1 hcontra.2
    have happ : ((acknowledge table message_id status now).2).any
        (fun e => decide (e.id = message_id ∧ e.status = OboxStatus.pending)) =
          false := by
      rw [List.any_eq_false]
      intro e2 he2
      simpa using hnp e2 he2
    have hmap : ((acknowledge table message_id status now).2).map
        (ackUpd message_id status2 now2) =
          (acknowledge table message_id status now).2 :=
      map_eq_self_of_all _ _
        (fun e2 he2 => ackUpd_not_matching _ _ _ _ (hnp e2 he2))
    simp only [acknowledge] at happ hmap ⊢
    rw [happ, hmap]
  · intro ops1 ops2 i hne
    rcases ackSeq_get?_cases ops1 table i with hsame | ⟨e, e2, he, hfin, _, hns, _⟩
    · exact absurd hsame hne
    · have hq : ackSeq table (ops1 ++ ops2) =
          ackSeq (ackSeq table ops1) ops2 := by
        simp [ackSeq, List.foldl_append]
      rw [hq, ackSeq_get?_stable ops2 (ackSeq table ops1) i e2 hfin hns, hfin]

/-- Witness for C1 on a one-row pending outbox: the first acknowledge applies,
the second (with a different terminal status) does not and changes nothing. -/
theorem acknowledge_idempotent_witness :
    (acknowledge [(⟨1, "+15551234567", "hello", 0, OboxStatus.pending, none⟩ :
        OutboxEntry)] 1 AckStatus.sent 5).1 = true ∧
    acknowledge (acknowledge [(⟨1, "+15551234567", "hello", 0,
        OboxStatus.pending, none⟩ : OutboxEntry)] 1 AckStatus.sent 5).2 1
        AckStatus.failed 6 =
      (false, (acknowledge [(⟨1, "+15551234567", "hello", 0,
        OboxStatus.pending, none⟩ : OutboxEntry)] 1 AckStatus.sent 5).2) := by
  have h := acknowledge_idempotent
    [(⟨1, "+15551234567", "hello", 0, OboxStatus.pending, none⟩ : OutboxEntry)]
    1 AckStatus.sent 5
  exact ⟨h.1.mpr (by decide), h.2.1 AckStatus.failed 6⟩

/-- C4: get_history returns exactly min(M, limit) of the M messages of the
conversation, sorted ascending by timestamp; every returned message belongs to
the conversation; every message of the conversation that was left out has a
timestamp no later than every returned one (the selection is the most-recent
ones); and when M is at most the limit the result is a permutation of all the
conversation's messages (ascending). -/
theorem get_history_spec (table : List MessageRow) (conversation_id limit : Nat) :
    (get_history table conversation_id limit).length =
      min (table.filter (fun m2 => m2.conversation_id == conversation_id)).length
        limit ∧
    List.Sorted (fun a b => a.timestamp ≤ b.timestamp)
      (get_history table conversation_id limit) ∧
    (∀ m ∈ get_history table conversation_id limit,
      m ∈ table.filter (fun m2 => m2.conversation_id == conversation_id)) ∧
    (∀ x ∈ get_history table conversation_id limit,
      ∀ y ∈ table.filter (fun m2 => m2.conversation_id == conversation_id),
        y ∉ get_history table conversation_id limit →
          y.timestamp ≤ x.timestamp) ∧
    ((table.filter (fun m2 => m2.conversation_id == conversation_id)).length ≤
        limit →
      (get_history table conversation_id limit).Perm
        (table.filter (fun m2 => m2.conversation_id == conversation_id))) := by
  have hperm : (List.insertionSort tsDesc
      (table.filter (fun m2 => m2.conversation_id == conversation_id))).Perm
        (table.filter (fun m2 => m2.conversation_id == conversation_id)) :=
    List.perm_insertionSort tsDesc _
  have hsorted : List.Sorted tsDesc (List.insertionSort tsDesc
      (table.filter (fun m2 => m2.conversation_id == conversation_id))) :=
    List.sorted_insertionSort tsDesc _
  have hresult : get_history table conversation_id limit =
      ((List.insertionSort tsDesc
        (table.filter (fun m2 => m2.conversation_id == conversation_id))).take
          limit).reverse := rfl
  refine ⟨?_, ?_, ?_, ?_, ?_⟩
  · rw [hresult, List.length_reverse, List.length_take, hperm.length_eq]
    exact Nat.min_comm _ _
  · rw [hresult]
    have h1 := List.Pairwise.sublist (List.take_sublist limit _) hsorted
    exact List.pairwise_reverse.mpr h1
  · intro m hm
    rw [hresult] at hm
    have hms : m ∈ List.insertionSort tsDesc
        (table.filter (fun m2 => m2.conversation_id == conversation_id)) :=
      (List.take_sublist limit _).mem (List.mem_reverse.mp hm)
    exact hperm.mem_iff.mp hms
  · intro x hx y hy hny
    rw [hresult] at hx hny
    have hys : y ∈ List.insertionSort tsDesc
        (table.filter (fun m2 => m2.conversation_id == conversation_id)) :=
      hperm.mem_iff.mpr hy
    have hxt := List.mem_reverse.mp hx
    have hyd : y ∈ (List.insertionSort tsDesc
        (table.filter (fun m2 => m2.conversation_id == conversation_id))).drop
          limit := by
      have hsplit : y ∈ (List.insertionSort tsDesc
          (table.filter (fun m2 => m2.conversation_id == conversation_id))).take
            limit ++ (List.insertionSort tsDesc
          (table.filter (fun m2 => m2.conversation_id == conversation_id))).drop
            limit := by
        rw [List.take_append_drop]
        exact hys
      rcases List.mem_append.mp hsplit with h | h
      · exact absurd (List.mem_reverse.mpr h) hny
      · exact h
    have hpair : List.Pairwise tsDesc ((List.insertionSort tsDesc
        (table.filter (fun m2 => m2.conversation_id == conversation_id))).take
          limit ++ (List.insertionSort tsDesc
        (table.filter (fun m2 => m2.conversation_id == conversation_id))).drop
          limit) := by
      rw [List.take_append_drop]
      exact hsorted
    exact (List.pairwise_append.mp hpair).2.2 x hxt y hyd
  · intro hle
    have htake : (List.insertionSort tsDesc
        (table.filter (fun m2 => m2.conversation_id == conversation_id))).take
          limit = List.insertionSort tsDesc
        (table.filter (fun m2 => m2.conversation_id == conversation_id)) :=
      List.take_of_length_le (by rw [hperm.length_eq]; exact hle)
    rw [hresult, htake]
    exact (List.reverse_perm _).trans hperm

/-- Witness for C4 on a four-row table: three messages in conversation 1 with
timestamps 1, 3, 2 and a limit of 2 yield the two most recent, ascending. -/
theorem get_history_spec_witness :
    get_history [(⟨1, 1, "user", "a", 1, "received"⟩ : MessageRow),
        ⟨2, 1, "assistant", "b", 3, "pending"⟩,
        ⟨3, 1, "user", "c", 2, "received"⟩,
        ⟨4, 2, "user", "d", 5, "received"⟩] 1 2 =
      [(⟨3, 1, "user", "c", 2, "received"⟩ : MessageRow),
        ⟨2, 1, "assistant", "b", 3, "pending"⟩] ∧
    (get_history [(⟨1, 1, "user", "a", 1, "received"⟩ : MessageRow),
        ⟨2, 1, "assistant", "b", 3, "pending"⟩,
        ⟨3, 1, "user", "c", 2, "received"⟩,
        ⟨4, 2, "user", "d", 5, "received"⟩] 1 2).length = 2 := by
  constructor
  · decide
  · rw [(get_history_spec [(⟨1, 1, "user", "a", 1, "received"⟩ : MessageRow),
        ⟨2, 1, "assistant", "b", 3, "pending"⟩,
        ⟨3, 1, "user", "c", 2, "received"⟩,
        ⟨4, 2, "user", "d", 5, "received"⟩] 1 2).1]
    decide

/-- A successful run of the try block implies no collaborator raised. -/
theorem processBody_ok_no_fault (ai : List ChatMessage → String → String)
    (system_prompt : String) (max_context : Nat) (faults : Faults) (db : Db)
    (phone_number content : String) (now : Nat) (res : Db)
    (h : processBody ai system_prompt max_context faults db phone_number content
        now = Except.ok res) :
    anyFault faults = false := by
  have h1 : faults.findOrCreate = false := by
    by_contra hc
    rw [Bool.not_eq_false] at hc
    simp [processBody, hc] at h
  have h2 : faults.createUser = false := by
    by_contra hc
    rw [Bool.not_eq_false] at hc
    simp [processBody, h1, hc] at h
  have h3 : faults.getHistory = false := by
    by_contra hc
    rw [Bool.not_eq_false] at hc
    simp [processBody, h1, h2, hc] at h
  have h4 : faults.generate = false := by
    by_contra hc
    rw [Bool.not_eq_false] at hc
    simp [processBody, h1, h2, h3, hc] at h
  have h5 : faults.createAssistant = false := by
    by_contra hc
    rw [Bool.not_eq_false] at hc
    simp [processBody, h1, h2, h3, h4, hc] at h
  have h6 : faults.enqueueStep = false := by
    by_contra hc
    rw [Bool.not_eq_false] at hc
    simp [processBody, h1, h2, h3, h4, h5, hc] at h
  have h7 : faults.touchStep = false := by
    by_contra hc
    rw [Bool.not_eq_false] at hc
    simp [processBody, h1, h2, h3, h4, h5, h6, hc] at h
  simp [anyFault, h1, h2, h3, h4, h5, h6, h7]

/-- With no injected fault the try block reduces to the fault-free pipeline. -/
theorem processBody_no_fault_eq (ai : List ChatMessage → String → String)
    (system_prompt : String) (max_context : Nat) (faults : Faults) (db : Db)
    (phone_number content : String) (now : Nat)
    (h : anyFault faults = false) :
    processBody ai system_prompt max_context faults db phone_number content now =
      Except.ok (pipelineResult ai system_prompt max_context db phone_number
        content now) := by
  simp only [anyFault, Bool.or_eq_false_iff] at h
  obtain ⟨⟨⟨⟨⟨⟨h1, h2⟩, h3⟩, h4⟩, h5⟩, h6⟩, h7⟩ := h
  simp [processBody, pipelineResult, pipelineResponse, h1, h2, h3, h4, h5, h6, h7]

/-- The fault-free pipeline appends exactly the user and assistant messages. -/
theorem pipelineResult_messages (ai : List ChatMessage → String → String)
    (system_prompt : String) (max_context : Nat) (db : Db)
    (phone_number content : String) (now : Nat) :
    (pipelineResult ai system_prompt max_context db phone_number content
        now).messages =
      db.messages ++
        [⟨db.nextMsgId, (findOrCreateDb db phone_number now).1.id, "user",
          content, now, "received"⟩,
         ⟨db.nextMsgId + 1, (findOrCreateDb db phone_number now).1.id,
           "assistant", pipelineResponse ai system_prompt max_context db
             phone_number content now, now, "pending"⟩] := by
  cases hfoc : find_by_phone db.conversations phone_number with
  | some c0 =>
    simp [pipelineResult, findOrCreateDb, hfoc, createMessage, enqueue, touch,
      List.append_assoc]
  | none =>
    simp [pipelineResult, findOrCreateDb, hfoc, createMessage, enqueue, touch,
      List.append_assoc]

/-- The fault-free pipeline appends exactly one pending outbox entry carrying
the reply and the sender's number. -/
theorem pipelineResult_outbox (ai : List ChatMessage → String → String)
    (system_prompt : String) (max_context : Nat) (db : Db)
    (phone_number content : String) (now : Nat) :
    (pipelineResult ai system_prompt max_context db phone_number content
        now).outbox =
      db.outbox ++
        [⟨db.nextOutboxId, phone_number, pipelineResponse ai system_prompt
          max_context db phone_number content now, now, OboxStatus.pending,
          none⟩] := by
  cases hfoc : find_by_phone db.conversations phone_number with
  | some c0 =>
    simp [pipelineResult, findOrCreateDb, hfoc, createMessage, enqueue, touch]
  | none =>
    simp [pipelineResult, findOrCreateDb, hfoc, createMessage, enqueue, touch]

/-- After the fault-free pipeline the conversation row for the sender exists
with the id used for the new messages. -/
theorem pipelineResult_conversations (ai : List ChatMessage → String → String)
    (system_prompt : String) (max_context : Nat) (db : Db)
    (phone_number content : String) (now : Nat) :
    ∃ c2 ∈ (pipelineResult ai system_prompt max_context db phone_number content
        now).conversations,
      c2.id = (findOrCreateDb db phone_number now).1.id ∧
      c2.phone_number = phone_number := by
  cases hfoc : find_by_phone db.conversations phone_number with
  | some c0 =>
    have hmem : c0 ∈ db.conversations := List.mem_of_find?_eq_some hfoc
    have hph : c0.phone_number = phone_number := by
      have := List.find?_some hfoc
      simpa using this
    simp only [pipelineResult, findOrCreateDb, hfoc, createMessage, enqueue,
      touch]
    refine ⟨{c0 with updated_at := now}, ?_, rfl, hph⟩
    simp only [List.mem_map]
    exact ⟨c0, hmem, by rw [if_pos rfl]⟩
  | none =>
    simp only [pipelineResult, findOrCreateDb, hfoc, createMessage, enqueue,
      touch]
    refine ⟨⟨db.nextConvId, phone_number, now, now⟩, ?_, rfl, rfl⟩
    simp only [List.mem_map]
    refine ⟨⟨db.nextConvId, phone_number, now, now⟩, ?_, by rw [if_pos rfl]⟩
    exact List.mem_append_right _ (List.mem_singleton.mpr rfl)

/-- C6: if any downstream collaborator of the authorized path raises
(conversation store, message store, AI provider, outbox, touch), the exception
is caught and process_incoming reports false to its caller instead of
propagating. -/
theorem process_incoming_catches (allowed_numbers : List String)
    (ai : List ChatMessage → String → String) (system_prompt : String)
    (max_context : Nat) (faults : Faults) (db : Db)
    (phone_number content : String) (now : Nat)
    (h : anyFault faults = true) :
    (process_incoming allowed_numbers ai system_prompt max_context faults db
        phone_number content now).1 = false := by
  by_cases ha : is_authorized allowed_numbers phone_number = true
  · cases hb : processBody ai system_prompt max_context faults db phone_number
        content now with
    | ok d =>
      rw [processBody_ok_no_fault ai system_prompt max_context faults db
        phone_number content now d hb] at h
      simp at h
    | error d =>
      simp [process_incoming, ha, hb]
  · simp [process_incoming, ha]

/-- Witness for C6: a raising AI provider makes process_incoming answer false. -/
theorem process_incoming_catches_witness :
    anyFault ⟨false, false, false, true, false, false, false⟩ = true ∧
    (process_incoming [] (fun _ _ => "hello") "sys" 20
        ⟨false, false, false, true, false, false, false⟩ emptyDb
        "+15551234567" "hi" 0).1 = false := by
  refine ⟨by decide, ?_⟩
  exact process_incoming_catches [] (fun _ _ => "hello") "sys" 20
    ⟨false, false, false, true, false, false, false⟩ emptyDb
    "+15551234567" "hi" 0 (by decide)

/-- C8: when process_incoming succeeds it creates, in the sender's
conversation, exactly one user message with the inbound content and status
received and one assistant message with the reply and status pending, plus
exactly one pending outbox entry whose content is the assistant message's
content and whose destination is the sender's number. -/
theorem process_incoming_success_effects (allowed_numbers : List String)
    (ai : List ChatMessage → String → String) (system_prompt : String)
    (max_context : Nat) (faults : Faults) (db : Db)
    (phone_number content : String) (now : Nat) (db2 : Db)
    (h : process_incoming allowed_numbers ai system_prompt max_context faults db
        phone_number content now = (true, db2)) :
    ∃ cid response,
      (∃ c2 ∈ db2.conversations, c2.id = cid ∧
        c2.phone_number = phone_number) ∧
      db2.messages = db.messages ++
        [⟨db.nextMsgId, cid, "user", content, now, "received"⟩,
         ⟨db.nextMsgId + 1, cid, "assistant", response, now, "pending"⟩] ∧
      db2.outbox = db.outbox ++
        [⟨db.nextOutboxId, phone_number, response, now, OboxStatus.pending,
          none⟩] := by
  by_cases ha : is_authorized allowed_numbers phone_number = true
  · cases hb : processBody ai system_prompt max_context faults db phone_number
        content now with
    | ok d =>
      have hnf := processBody_ok_no_fault ai system_prompt max_context faults db
        phone_number content now d hb
      have hdp : d = pipelineResult ai system_prompt max_context db phone_number
          content now := by
        have h2 := processBody_no_fault_eq ai system_prompt max_context faults
          db phone_number content now hnf
        rw [hb] at h2
        simpa using h2
      simp only [process_incoming, ha, if_true, hb] at h
      simp only [Prod.mk.injEq, true_and] at h
      have hdb2 : pipelineResult ai system_prompt max_context db phone_number
          content now = db2 := by
        rw [← hdp]
        exact h
      refine ⟨(findOrCreateDb db phone_number now).1.id,
        pipelineResponse ai system_prompt max_context db phone_number content
          now, ?_, ?_, ?_⟩
      · rw [← hdb2]
        exact pipelineResult_conversations ai system_prompt max_context db
          phone_number content now
      · rw [← hdb2]
        exact pipelineResult_messages ai system_prompt max_context db
          phone_number content now
      · rw [← hdb2]
        exact pipelineResult_outbox ai system_prompt max_context db
          phone_number content now
    | error d =>
      simp [process_incoming, ha, hb] at h
  · simp [process_incoming, ha] at h

/-- Witness for C8: the end-to-end open-mode run with a stub provider that
answers "hello" on the empty database. -/
theorem process_incoming_success_effects_witness :
    ∃ cid response,
      (∃ c2 ∈ (Db.mk [⟨1, "+15551234567", 0, 0⟩]
          [⟨1, 1, "user", "hi", 0, "received"⟩,
           ⟨2, 1, "assistant", "hello", 0, "pending"⟩]
          [⟨1, "+15551234567", "hello", 0, OboxStatus.pending, none⟩]
          2 3 2).conversations, c2.id = cid ∧
        c2.phone_number = "+15551234567") ∧
      (Db.mk [⟨1, "+15551234567", 0, 0⟩]
          [⟨1, 1, "user", "hi", 0, "received"⟩,
           ⟨2, 1, "assistant", "hello", 0, "pending"⟩]
          [⟨1, "+15551234567", "hello", 0, OboxStatus.pending, none⟩]
          2 3 2).messages = emptyDb.messages ++
        [⟨emptyDb.nextMsgId, cid, "user", "hi", 0, "received"⟩,
         ⟨emptyDb.nextMsgId + 1, cid, "assistant", response, 0, "pending"⟩] ∧
      (Db.mk [⟨1, "+15551234567", 0, 0⟩]
          [⟨1, 1, "user", "hi", 0, "received"⟩,
           ⟨2, 1, "assistant", "hello", 0, "pending"⟩]
          [⟨1, "+15551234567", "hello", 0, OboxStatus.pending, none⟩]
          2 3 2).outbox = emptyDb.outbox ++
        [⟨emptyDb.nextOutboxId, "+15551234567", response, 0,
          OboxStatus.pending, none⟩] := by
  exact process_incoming_success_effects [] (fun _ _ => "hello") "sys" 20
    noFaults emptyDb "+15551234567" "hi" 0
    (Db.mk [⟨1, "+15551234567", 0, 0⟩]
      [⟨1, 1, "user", "hi", 0, "received"⟩,
       ⟨2, 1, "assistant", "hello", 0, "pending"⟩]
      [⟨1, "+15551234567", "hello", 0, OboxStatus.pending, none⟩]
      2 3 2) (by decide)

end SmsAssistant
